import Mathlib

/-!
Verification of `shiny/ui/_input_date.py`: the date-picker input builders
`input_date`, `input_date_range`, the shared tag builder `_date_input_tag`
and the date-attribute normalizer `_as_date_attr`.

The embedding models:
* Python `datetime.date` as a record of year/month/day with the validity
  predicate the `date` constructor enforces (years 1..9999, real calendar
  days, proleptic Gregorian leap years);
* `date.fromisoformat` in its canonical form (the documented inverse of
  `date.isoformat`): it accepts exactly the strings `yyyy-mm-dd` that
  denote a valid date, and `str(date)` zero-pads to `%04d-%02d-%02d`;
* `json.dumps` with its default separators (`", "` between array items)
  and default `ensure_ascii` string escaping;
* htmltools tags as a tree of elements carrying an ordered attribute list;
  an attribute whose value is Python `None` is dropped, other values are
  rendered to strings; kwarg names arrive hyphenated (`data_date_format`
  -> `data-date-format`); `css(width=w)` renders `width:<w>;` and yields
  `None` when `w` is `None`;
* the repository collaborators that are outside the file under
  verification (`resolve_id`, `restore_input`, `shiny_input_label`,
  `datepicker_deps`) as abstract inputs, modelled from the spec.

Python `ValueError` from a failed date parse is the spec's `FormatError`;
builders return `Except FormatError TagNode`.
-/

/-- A Python `datetime.date` value: year, month, day fields. -/
structure Date where
  year : Nat
  month : Nat
  day : Nat
deriving DecidableEq, Repr

/-- Proleptic Gregorian leap year, as Python `calendar.isleap`. -/
def isLeap (y : Nat) : Bool :=
  y % 4 = 0 && (y % 100 != 0 || y % 400 = 0)

/-- Days in a month of a given year, as CPython `days_in_month`. -/
def daysInMonth (y m : Nat) : Nat :=
  if m = 2 then (if isLeap y then 29 else 28)
  else if m = 4 || m = 6 || m = 9 || m = 11 then 30
  else 31

/-- The validity check the Python `date` constructor enforces:
`MINYEAR = 1 <= year <= MAXYEAR = 9999`, a real calendar day. -/
def dateValid (y m d : Nat) : Bool :=
  1 ≤ y && y ≤ 9999 && 1 ≤ m && m ≤ 12 && 1 ≤ d && d ≤ daysInMonth y m

/-- A `Date` record that satisfies the constructor check (every Python
`date` object does). -/
def Date.valid (d : Date) : Bool :=
  dateValid d.year d.month d.day

/-- The ASCII digit character for `n < 10`. -/
def digitChar (n : Nat) : Char :=
  Char.ofNat (48 + n)

/-- `%04d` zero-padding (as a character list) for `n <= 9999`. -/
def pad4 (n : Nat) : List Char :=
  [digitChar (n / 1000 % 10), digitChar (n / 100 % 10),
   digitChar (n / 10 % 10), digitChar (n % 10)]

/-- `%02d` zero-padding (as a character list) for `n <= 99`. -/
def pad2 (n : Nat) : List Char :=
  [digitChar (n / 10 % 10), digitChar (n % 10)]

/-- Python `str(d)` for a `date`: `isoformat`, i.e. `%04d-%02d-%02d`. -/
def dateToStr (d : Date) : String :=
  String.mk (pad4 d.year ++ ['-'] ++ pad2 d.month ++ ['-'] ++ pad2 d.day)

/-- Parse one ASCII digit character. -/
def parseDigit (c : Char) : Option Nat :=
  if 48 ≤ c.toNat ∧ c.toNat ≤ 57 then some (c.toNat - 48) else none

/-- `date.fromisoformat` on a character list: accepts exactly the
canonical `yyyy-mm-dd` form denoting a valid date. -/
def fromisoChars : List Char → Option Date
  | [y1, y2, y3, y4, h1, m1, m2, h2, d1, d2] =>
    if h1 = '-' ∧ h2 = '-' then do
      let a ← parseDigit y1
      let b ← parseDigit y2
      let c ← parseDigit y3
      let e ← parseDigit y4
      let f ← parseDigit m1
      let g ← parseDigit m2
      let h ← parseDigit d1
      let i ← parseDigit d2
      let y := 1000 * a + 100 * b + 10 * c + e
      let m := 10 * f + g
      let d := 10 * h + i
      if dateValid y m d then some ⟨y, m, d⟩ else none
    else none
  | _ => none

/-- `date.fromisoformat`: parse a string in canonical `yyyy-mm-dd` form
(the documented inverse of `date.isoformat`); `none` models the
`ValueError` raised on any other string. -/
def fromisoformat (s : String) : Option Date :=
  fromisoChars s.toList

/-- The `Optional[date | str]` union accepted by the date parameters. -/
inductive DateLike where
  | native (d : Date)
  | str (s : String)
deriving DecidableEq, Repr

/-- The error raised on a failed ISO date parse (Python `ValueError`,
the spec's FormatError). -/
structure FormatError where
  msg : String
deriving DecidableEq, Repr

/-- `_as_date_attr` from `_input_date.py`:
`None -> None`; a `date` -> `str(x)`; a string -> parse it with
`date.fromisoformat` and re-serialize, raising on a malformed string. -/
def _as_date_attr : Option DateLike → Except FormatError (Option String)
  | none => .ok none
  | some (.native d) => .ok (some (dateToStr d))
  | some (.str s) =>
    match fromisoformat s with
    | some d => .ok (some (dateToStr d))
    | none => .error ⟨"Invalid isoformat string: " ++ s⟩

/-- The value `_as_date_attr` yields when it does not raise. -/
def dateAttrStr : DateLike → Option String
  | .native d => some (dateToStr d)
  | .str s => (fromisoformat s).map dateToStr

/-- `dateAttrStr` lifted to the optional date-like union. -/
def dateAttrOpt (v : Option DateLike) : Option String :=
  v.bind dateAttrStr

/-- Whether `_as_date_attr` succeeds on this optional date-like value. -/
def okDL : Option DateLike → Bool
  | none => true
  | some (.native _) => true
  | some (.str s) => (fromisoformat s).isSome

/-- JSON hex digit. -/
def hexDigit (n : Nat) : Char :=
  if n < 10 then Char.ofNat (48 + n) else Char.ofNat (87 + n)

/-- Four lowercase hex digits, as in a JSON `\uXXXX` escape. -/
def hex4 (n : Nat) : String :=
  String.mk [hexDigit (n / 4096 % 16), hexDigit (n / 256 % 16),
             hexDigit (n / 16 % 16), hexDigit (n % 16)]

/-- `json.dumps` escaping of one character with the default
`ensure_ascii=True`: escapes `"` and backslash, control characters, and
everything outside printable ASCII. -/
def jsonEscapeChar (c : Char) : String :=
  if c = '"' then "\\\""
  else if c = '\\' then "\\\\"
  else if c = '\n' then "\\n"
  else if c = '\r' then "\\r"
  else if c = '\t' then "\\t"
  else if c.toNat = 8 then "\\b"
  else if c.toNat = 12 then "\\f"
  else if c.toNat < 32 ∨ c.toNat > 126 then
    if c.toNat < 65536 then "\\u" ++ hex4 c.toNat
    else "\\u" ++ hex4 (55296 + (c.toNat - 65536) / 1024)
         ++ "\\u" ++ hex4 (56320 + (c.toNat - 65536) % 1024)
  else String.singleton c

/-- `json.dumps` of a Python string. -/
def jsonString (s : String) : String :=
  "\"" ++ String.join (s.toList.map jsonEscapeChar) ++ "\""

/-- `json.dumps(datesdisabled)` for `Optional[list[str]]`: `None`
serializes to the literal `null`, a list to a JSON array with the
default `", "` item separator. -/
def jsonDumpsStrList : Option (List String) → String
  | none => "null"
  | some l => "[" ++ String.intercalate ", " (l.map jsonString) ++ "]"

/-- `json.dumps(daysofweekdisabled)` for `Optional[list[int]]`. -/
def jsonDumpsIntList : Option (List Int) → String
  | none => "null"
  | some l => "[" ++ String.intercalate ", " (l.map (fun n => toString n)) ++ "]"

/-- An htmltools markup node: a text node, an element with an ordered
attribute list and children, or an attached HTML dependency. -/
inductive TagNode where
  | text (s : String)
  | elem (name : String) (attrs : List (String × String)) (children : List TagNode)
  | dep (name : String)

/-- Attribute list of an element node. -/
def TagNode.attrs : TagNode → List (String × String)
  | .elem _ a _ => a
  | _ => []

/-- Children of an element node. -/
def TagNode.children : TagNode → List TagNode
  | .elem _ _ c => c
  | _ => []

/-- Element name of a node. -/
def TagNode.name : TagNode → String
  | .elem n _ _ => n
  | _ => ""

/-- The `i`-th child of a node. -/
def child (t : TagNode) (i : Nat) : TagNode :=
  t.children.getD i (.text "")

/-- First attribute with the given name, if any. -/
def getAttr (t : TagNode) (a : String) : Option String :=
  (t.attrs.find? (fun p => p.1 = a)).map (fun p => p.2)

/-- Drop the attribute with the given name from an attribute list. -/
def removeAttr (l : List (String × String)) (a : String) : List (String × String) :=
  l.filter (fun p => p.1 != a)

/-- htmltools attribute assembly: an attribute whose value is Python
`None` is dropped, the others keep their rendered string value in
order. -/
def buildAttrs (l : List (String × Option String)) : List (String × String) :=
  l.filterMap (fun p => p.2.map (fun v => (p.1, v)))

/-- htmltools `css(width=width)`: `None` when the width is absent,
otherwise the declaration `width:<w>;`. -/
def cssWidth : Option String → Option String
  | none => none
  | some w => some ("width:" ++ w ++ ";")

/-- Modelled from the spec: `shiny_input_label` (in `shiny/ui/_utils.py`,
not under `src/`) renders an accessible label element whose id is the
resolved input id plus `"-label"`. -/
def shiny_input_label (id : String) (label : TagNode) : TagNode :=
  .elem "label" [("class", "control-label"), ("id", id ++ "-label"), ("for", id)]
    [label]

/-- Modelled from the spec: `datepicker_deps` (in
`shiny/ui/_html_deps_external.py`, not under `src/`) returns the
client-side date-picker script/style dependency bundle. -/
def datepicker_deps : TagNode :=
  .dep "bootstrap-datepicker"

/-- Modelled from the spec: `restore_input` (in `shiny/bookmark`, not
under `src/`) returns the value previously bookmarked under the key, of
matching shape, or the default unchanged. The bookmark store is the
function `saved`. -/
def restore_input {α : Type} (saved : String → Option α) (key : String)
    (default : α) : α :=
  (saved key).getD default

/-- `_date_input_tag` from `_input_date.py`: one `input` element of type
`text` with the datepicker dependency attached, the fixed attribute set,
and any extra keyword attributes appended; date-valued attributes go
through `_as_date_attr`, whose parse failure propagates. -/
def _date_input_tag (id : String) (value mn mx : Option DateLike)
    (format startview : String) (weekstart : Int) (language : String)
    (autoclose : Bool) (kwargs : List (String × Option String)) :
    Except FormatError TagNode := do
  let minA ← _as_date_attr mn
  let maxA ← _as_date_attr mx
  let valA ← _as_date_attr value
  .ok (.elem "input"
    (buildAttrs
      ([("class", some "form-control"),
        ("type", some "text"),
        ("aria-labelledby", some (id ++ "-label")),
        ("title", some ("Date format: " ++ format)),
        ("data-date-language", some language),
        ("data-date-week-start", some (toString weekstart)),
        ("data-date-format", some format),
        ("data-date-start-view", some startview),
        ("data-min-date", minA),
        ("data-max-date", maxA),
        ("data-initial-date", valA),
        ("data-date-autoclose", some (if autoclose then "true" else "false"))]
       ++ kwargs))
    [datepicker_deps])

/-- `input_date` from `_input_date.py`. `saved` is the bookmark store
behind `restore_input`, `resolve` the module id-resolution service and
`today` the caller's current local date (`date.today()`). -/
def input_date (saved : String → Option DateLike) (resolve : String → String)
    (today : Date) (id : String) (label : TagNode)
    (value mn mx : Option DateLike) (format startview : String)
    (weekstart : Int) (language : String) (width : Option String)
    (autoclose : Bool) (datesdisabled : Option (List String))
    (daysofweekdisabled : Option (List Int)) : Except FormatError TagNode := do
  let resolved_id := resolve id
  let default_value := value.getD (.native today)
  let inp ← _date_input_tag resolved_id
    (some (restore_input saved resolved_id default_value)) mn mx
    format startview weekstart language autoclose
    [("data-date-dates-disabled", some (jsonDumpsStrList datesdisabled)),
     ("data-date-days-of-week-disabled", some (jsonDumpsIntList daysofweekdisabled))]
  .ok (.elem "div"
    (buildAttrs
      [("id", some resolved_id),
       ("class", some "shiny-date-input form-group shiny-input-container"),
       ("style", cssWidth width)])
    [shiny_input_label resolved_id label, inp])

/-- `input_date_range` from `_input_date.py`. The bookmarked value for a
range is the shape-matching pair `[start, end]`, modelled as a pair. -/
def input_date_range (saved : String → Option (DateLike × DateLike))
    (resolve : String → String) (today : Date) (id : String) (label : TagNode)
    (start stop mn mx : Option DateLike) (format startview : String)
    (weekstart : Int) (language : String) (separator : String)
    (width : Option String) (autoclose : Bool) : Except FormatError TagNode := do
  let resolved_id := resolve id
  let default_start := start.getD (.native today)
  let default_end := stop.getD (.native today)
  let restored_date_range :=
    restore_input saved resolved_id (default_start, default_end)
  let inp1 ← _date_input_tag resolved_id (some restored_date_range.1) mn mx
    format startview weekstart language autoclose []
  let inp2 ← _date_input_tag resolved_id (some restored_date_range.2) mn mx
    format startview weekstart language autoclose []
  .ok (.elem "div"
    (buildAttrs
      [("id", some resolved_id),
       ("class", some "shiny-date-range-input form-group shiny-input-container"),
       ("style", cssWidth width)])
    [shiny_input_label resolved_id label,
     .elem "div"
       (buildAttrs [("class", some "input-daterange input-group input-group-sm")])
       [inp1,
        .elem "span"
          (buildAttrs
            [("class", some "input-group-addon input-group-prepend input-group-append")])
          [.elem "span" (buildAttrs [("class", some "input-group-text")])
            [.text separator]],
        inp2]])

/-- Project an `Except` render result to its tag (dummy text node on
error); used to phrase attribute lookups on successful renders. -/
def okTag : Except FormatError TagNode → TagNode
  | .ok t => t
  | .error _ => .text ""

/-- Whether a render attempt succeeded. -/
def isOkE {α : Type} : Except FormatError α → Bool
  | .ok _ => true
  | .error _ => false

/-- Drop the inline `style` attribute of an element; used to state that
nothing except the container style depends on `width`. -/
def stripStyle : TagNode → TagNode
  | .elem n a c => .elem n (removeAttr a "style") c
  | t => t

/-- The attribute list `_date_input_tag` assembles (before dropping
`None`-valued entries), with the date attributes already normalized. -/
def builtInputAttrs (id : String) (value mn mx : Option DateLike)
    (format startview : String) (weekstart : Int) (language : String)
    (autoclose : Bool) : List (String × Option String) :=
  [("class", some "form-control"),
   ("type", some "text"),
   ("aria-labelledby", some (id ++ "-label")),
   ("title", some ("Date format: " ++ format)),
   ("data-date-language", some language),
   ("data-date-week-start", some (toString weekstart)),
   ("data-date-format", some format),
   ("data-date-start-view", some startview),
   ("data-min-date", dateAttrOpt mn),
   ("data-max-date", dateAttrOpt mx),
   ("data-initial-date", dateAttrOpt value),
   ("data-date-autoclose", some (if autoclose then "true" else "false"))]

/-- The input element `_date_input_tag` produces when no date parse
fails. -/
def builtInputTag (id : String) (value mn mx : Option DateLike)
    (format startview : String) (weekstart : Int) (language : String)
    (autoclose : Bool) (kwargs : List (String × Option String)) : TagNode :=
  .elem "input"
    (buildAttrs
      (builtInputAttrs id value mn mx format startview weekstart language autoclose
       ++ kwargs))
    [datepicker_deps]

lemma parseDigit_inv (c : Char) (a : Nat) (h : parseDigit c = some a) :
    a ≤ 9 ∧ digitChar a = c := by
  unfold parseDigit at h
  split at h
  · injection h with h'
    subst h'
    rename_i hc
    refine ⟨by omega, ?_⟩
    unfold digitChar
    rw [show 48 + (c.toNat - 48) = c.toNat by omega]
    exact Char.ofNat_toNat c
  · exact absurd h (by simp)

lemma fromisoformat_roundtrip (s : String) (d : Date)
    (h : fromisoformat s = some d) : dateToStr d = s := by
  cases s with
  | mk l =>
    have hl : fromisoChars l = some d := h
    clear h
    rw [fromisoChars.eq_def] at hl
    split at hl
    case h_2 => exact absurd hl (by simp)
    case h_1 c1 c2 c3 c4 c5 c6 c7 c8 c9 c10 =>
    split at hl
    case isFalse => exact absurd hl (by simp)
    case isTrue hdash =>
      obtain ⟨hd1, hd2⟩ := hdash
      subst hd1; subst hd2
      cases hp1 : parseDigit c1 with
      | none => rw [hp1] at hl; exact absurd hl (by simp)
      | some a =>
      rw [hp1] at hl
      cases hp2 : parseDigit c2 with
      | none => rw [hp2] at hl; exact absurd hl (by simp)
      | some b =>
      rw [hp2] at hl
      cases hp3 : parseDigit c3 with
      | none => rw [hp3] at hl; exact absurd hl (by simp)
      | some c =>
      rw [hp3] at hl
      cases hp4 : parseDigit c4 with
      | none => rw [hp4] at hl; exact absurd hl (by simp)
      | some e =>
      rw [hp4] at hl
      cases hp5 : parseDigit c6 with
      | none => rw [hp5] at hl; exact absurd hl (by simp)
      | some f =>
      rw [hp5] at hl
      cases hp6 : parseDigit c7 with
      | none => rw [hp6] at hl; exact absurd hl (by simp)
      | some g =>
      rw [hp6] at hl
      cases hp7 : parseDigit c9 with
      | none => rw [hp7] at hl; exact absurd hl (by simp)
      | some hh =>
      rw [hp7] at hl
      cases hp8 : parseDigit c10 with
      | none => rw [hp8] at hl; exact absurd hl (by simp)
      | some i =>
      rw [hp8] at hl
      simp only [Option.bind_eq_bind, Option.some_bind] at hl
      split at hl
      case isFalse => exact absurd hl (by simp)
      case isTrue hvalid =>
        injection hl with hl'
        subst hl'
        obtain ⟨ha9, hac⟩ := parseDigit_inv c1 a hp1
        obtain ⟨hb9, hbc⟩ := parseDigit_inv c2 b hp2
        obtain ⟨hc9, hcc⟩ := parseDigit_inv c3 c hp3
        obtain ⟨he9, hec⟩ := parseDigit_inv c4 e hp4
        obtain ⟨hf9, hfc⟩ := parseDigit_inv c6 f hp5
        obtain ⟨hg9, hgc⟩ := parseDigit_inv c7 g hp6
        obtain ⟨hh9, hhc⟩ := parseDigit_inv c9 hh hp7
        obtain ⟨hi9, hic⟩ := parseDigit_inv c10 i hp8
        unfold dateToStr pad4 pad2
        apply congrArg String.mk
        simp only [List.cons_append, List.nil_append, List.cons.injEq, and_true]
        refine ⟨?_, ?_, ?_, ?_, trivial, ?_, ?_, trivial, ?_, ?_⟩ <;>
          [rw [← hac]; rw [← hbc]; rw [← hcc]; rw [← hec]; rw [← hfc];
           rw [← hgc]; rw [← hhc]; rw [← hic]] <;>
          (congr 1; omega)

lemma as_date_attr_ok (v : Option DateLike) (h : okDL v = true) :
    _as_date_attr v = .ok (dateAttrOpt v) := by
  cases v with
  | none => rfl
  | some w =>
    cases w with
    | native d => rfl
    | str s =>
      cases hf : fromisoformat s with
      | some d => simp [_as_date_attr, dateAttrOpt, dateAttrStr, hf]
      | none => simp only [okDL] at h; rw [hf] at h; simp at h

lemma isOkE_as_date_attr (v : Option DateLike) :
    isOkE (_as_date_attr v) = okDL v := by
  cases v with
  | none => rfl
  | some w =>
    cases w with
    | native d => rfl
    | str s =>
      unfold _as_date_attr okDL
      cases hf : fromisoformat s <;> simp [isOkE, hf]

lemma isOkE_bind_pure {α β : Type} (e : Except FormatError α) (f : α → β) :
    isOkE (e >>= fun x => Except.ok (f x)) = isOkE e := by
  cases e <;> rfl

lemma isOkE_bind2_pure {α β : Type} (e1 e2 : Except FormatError α)
    (f : α → α → β) :
    isOkE (e1 >>= fun x => e2 >>= fun y => Except.ok (f x y))
      = (isOkE e1 && isOkE e2) := by
  cases e1 <;> cases e2 <;> rfl

lemma okDL_some_getD (v : Option DateLike) (today : Date) :
    okDL (some (v.getD (.native today))) = okDL v := by
  cases v <;> rfl

lemma dateAttrStr_isSome (v : DateLike) :
    (dateAttrStr v).isSome = okDL (some v) := by
  cases v with
  | native d => rfl
  | str s => simp [dateAttrStr, okDL]

lemma date_input_tag_ok (id : String) (value mn mx : Option DateLike)
    (format startview : String) (weekstart : Int) (language : String)
    (autoclose : Bool) (kwargs : List (String × Option String))
    (hv : okDL value = true) (hmn : okDL mn = true) (hmx : okDL mx = true) :
    _date_input_tag id value mn mx format startview weekstart language
        autoclose kwargs
      = .ok (builtInputTag id value mn mx format startview weekstart language
          autoclose kwargs) := by
  unfold _date_input_tag
  rw [as_date_attr_ok mn hmn, as_date_attr_ok mx hmx, as_date_attr_ok value hv]
  rfl

lemma input_date_ok (saved : String → Option DateLike) (resolve : String → String)
    (today : Date) (id : String) (label : TagNode)
    (value mn mx : Option DateLike) (format startview : String)
    (weekstart : Int) (language : String) (width : Option String)
    (autoclose : Bool) (dd : Option (List String)) (dw : Option (List Int))
    (hv : okDL (some (restore_input saved (resolve id) (value.getD (.native today)))) = true)
    (hmn : okDL mn = true) (hmx : okDL mx = true) :
    input_date saved resolve today id label value mn mx format startview
        weekstart language width autoclose dd dw
      = .ok (.elem "div"
          (buildAttrs
            [("id", some (resolve id)),
             ("class", some "shiny-date-input form-group shiny-input-container"),
             ("style", cssWidth width)])
          [shiny_input_label (resolve id) label,
           builtInputTag (resolve id)
             (some (restore_input saved (resolve id) (value.getD (.native today))))
             mn mx format startview weekstart language autoclose
             [("data-date-dates-disabled", some (jsonDumpsStrList dd)),
              ("data-date-days-of-week-disabled", some (jsonDumpsIntList dw))]]) := by
  simp only [input_date]
  rw [date_input_tag_ok _ _ _ _ _ _ _ _ _ _ hv hmn hmx]
  rfl

lemma input_date_range_ok (saved : String → Option (DateLike × DateLike))
    (resolve : String → String) (today : Date) (id : String) (label : TagNode)
    (start stop mn mx : Option DateLike) (format startview : String)
    (weekstart : Int) (language : String) (separator : String)
    (width : Option String) (autoclose : Bool)
    (h1 : okDL (some (restore_input saved (resolve id)
      (start.getD (.native today), stop.getD (.native today))).1) = true)
    (h2 : okDL (some (restore_input saved (resolve id)
      (start.getD (.native today), stop.getD (.native today))).2) = true)
    (hmn : okDL mn = true) (hmx : okDL mx = true) :
    input_date_range saved resolve today id label start stop mn mx format
        startview weekstart language separator width autoclose
      = .ok (.elem "div"
          (buildAttrs
            [("id", some (resolve id)),
             ("class", some "shiny-date-range-input form-group shiny-input-container"),
             ("style", cssWidth width)])
          [shiny_input_label (resolve id) label,
           .elem "div"
             (buildAttrs [("class", some "input-daterange input-group input-group-sm")])
             [builtInputTag (resolve id)
                (some (restore_input saved (resolve id)
                  (start.getD (.native today), stop.getD (.native today))).1)
                mn mx format startview weekstart language autoclose [],
              .elem "span"
                (buildAttrs
                  [("class", some "input-group-addon input-group-prepend input-group-append")])
                [.elem "span" (buildAttrs [("class", some "input-group-text")])
                  [.text separator]],
              builtInputTag (resolve id)
                (some (restore_input saved (resolve id)
                  (start.getD (.native today), stop.getD (.native today))).2)
                mn mx format startview weekstart language autoclose []]]) := by
  simp only [input_date_range]
  rw [date_input_tag_ok _ _ _ _ _ _ _ _ _ _ h1 hmn hmx,
      date_input_tag_ok _ _ _ _ _ _ _ _ _ _ h2 hmn hmx]
  rfl

lemma isOkE_date_input_tag (id : String) (value mn mx : Option DateLike)
    (format startview : String) (weekstart : Int) (language : String)
    (autoclose : Bool) (kwargs : List (String × Option String)) :
    isOkE (_date_input_tag id value mn mx format startview weekstart language
        autoclose kwargs)
      = (okDL mn && okDL mx && okDL value) := by
  unfold _date_input_tag
  rw [← isOkE_as_date_attr mn, ← isOkE_as_date_attr mx, ← isOkE_as_date_attr value]
  generalize _as_date_attr mn = em
  generalize _as_date_attr mx = ex
  generalize _as_date_attr value = ev
  cases em <;> cases ex <;> cases ev <;> rfl

/-- C1: for every valid ISO `yyyy-mm-dd` date string `s` (one accepted by
`fromisoformat`), `_as_date_attr` returns `s` itself, and applying it to the
native date value parsed from `s` also returns `s`. -/
theorem c1_as_date_attr_iso_roundtrip (s : String) (d : Date)
    (h : fromisoformat s = some d) :
    _as_date_attr (some (.str s)) = .ok (some s) ∧
    _as_date_attr (some (.native d)) = .ok (some s) := by
  have hs := fromisoformat_roundtrip s d h
  constructor
  · simp [_as_date_attr, h, hs]
  · simp [_as_date_attr, hs]

/-- Witness for C1 at the concrete string `2024-03-15`. -/
theorem c1_witness :
    fromisoformat "2024-03-15" = some ⟨2024, 3, 15⟩ ∧
    (_as_date_attr (some (.str "2024-03-15")) = .ok (some "2024-03-15") ∧
     _as_date_attr (some (.native ⟨2024, 3, 15⟩)) = .ok (some "2024-03-15")) :=
  ⟨rfl, c1_as_date_attr_iso_roundtrip "2024-03-15" ⟨2024, 3, 15⟩ rfl⟩

/-- C2: with no bookmarked state, a render of `input_date` or
`input_date_range` succeeds exactly when every supplied date among
value/start/end/min/max is absent, a native date, or a string parsing as
canonical ISO `yyyy-mm-dd`; a malformed string makes the render fail with a
FormatError and produce no output, and no other parameter (format, language,
startview, weekstart, width, autoclose, separator, disabled lists) can cause
a failure. -/
theorem c2_parse_failure_only (resolve : String → String) (today : Date)
    (id : String) (label : TagNode) (value start stop mn mx : Option DateLike)
    (format startview : String) (weekstart : Int) (language separator : String)
    (width : Option String) (autoclose : Bool) (dd : Option (List String))
    (dw : Option (List Int)) :
    isOkE (input_date (fun _ => none) resolve today id label value mn mx format
        startview weekstart language width autoclose dd dw)
      = (okDL value && okDL mn && okDL mx)
    ∧ isOkE (input_date_range (fun _ => none) resolve today id label start stop
        mn mx format startview weekstart language separator width autoclose)
      = (okDL start && okDL stop && okDL mn && okDL mx) := by
  constructor
  · simp only [input_date]
    rw [isOkE_bind_pure, isOkE_date_input_tag]
    have hr : restore_input (fun _ => none) (resolve id)
        (value.getD (.native today)) = value.getD (.native today) := rfl
    rw [hr, okDL_some_getD]
    cases okDL value <;> cases okDL mn <;> cases okDL mx <;> rfl
  · simp only [input_date_range]
    rw [isOkE_bind2_pure, isOkE_date_input_tag, isOkE_date_input_tag]
    have hr : restore_input (fun _ => none) (resolve id)
        (start.getD (.native today), stop.getD (.native today))
        = (start.getD (.native today), stop.getD (.native today)) := rfl
    rw [hr]
    rw [show ((start.getD (DateLike.native today), stop.getD (DateLike.native today)).1)
        = start.getD (DateLike.native today) from rfl,
      show ((start.getD (DateLike.native today), stop.getD (DateLike.native today)).2)
        = stop.getD (DateLike.native today) from rfl,
      okDL_some_getD, okDL_some_getD]
    cases okDL start <;> cases okDL stop <;> cases okDL mn <;> cases okDL mx <;> rfl

/-- C4: when `value` is absent, the default handed to the restore
collaborator (keyed by the resolved id) is the caller's current local date,
and the emitted `data-initial-date` is the normalized restored value; when
the collaborator has nothing saved it returns that default, so the attribute
is the ISO form of the current date. -/
theorem c4_value_defaults_to_today (saved : String → Option DateLike)
    (resolve : String → String) (today : Date) (id : String) (label : TagNode)
    (mn mx : Option DateLike) (format startview : String) (weekstart : Int)
    (language : String) (width : Option String) (autoclose : Bool)
    (dd : Option (List String)) (dw : Option (List Int))
    (hr : okDL (some (restore_input saved (resolve id) (.native today))) = true)
    (hmn : okDL mn = true) (hmx : okDL mx = true) :
    getAttr (child (okTag (input_date saved resolve today id label none mn mx
        format startview weekstart language width autoclose dd dw)) 1)
        "data-initial-date"
      = dateAttrStr (restore_input saved (resolve id) (.native today))
    ∧ (saved (resolve id) = none →
        getAttr (child (okTag (input_date saved resolve today id label none mn mx
            format startview weekstart language width autoclose dd dw)) 1)
            "data-initial-date"
          = some (dateToStr today)) := by
  rw [input_date_ok saved resolve today id label none mn mx format startview
    weekstart language width autoclose dd dw hr hmn hmx]
  have hmain : getAttr (child (okTag (Except.ok (TagNode.elem "div"
      (buildAttrs
        [("id", some (resolve id)),
         ("class", some "shiny-date-input form-group shiny-input-container"),
         ("style", cssWidth width)])
      [shiny_input_label (resolve id) label,
       builtInputTag (resolve id)
         (some (restore_input saved (resolve id) ((none : Option DateLike).getD (.native today))))
         mn mx format startview weekstart language autoclose
         [("data-date-dates-disabled", some (jsonDumpsStrList dd)),
          ("data-date-days-of-week-disabled", some (jsonDumpsIntList dw))]]))) 1)
      "data-initial-date"
      = dateAttrStr (restore_input saved (resolve id) (.native today)) := by
    simp only [okTag, child, TagNode.children, List.getD, List.get?, Option.getD]
    have hsome : dateAttrOpt (some (restore_input saved (resolve id) (.native today)))
        = dateAttrStr (restore_input saved (resolve id) (.native today)) := rfl
    cases hm : dateAttrOpt mn <;> cases hx : dateAttrOpt mx <;>
      cases hv : dateAttrStr (restore_input saved (resolve id) (.native today)) <;>
      simp [builtInputTag, builtInputAttrs, hsome, hm, hx, hv, buildAttrs, getAttr,
        TagNode.attrs]
  refine ⟨hmain, fun hnone => ?_⟩
  rw [hmain]
  have : restore_input saved (resolve id) (DateLike.native today) = .native today := by
    unfold restore_input
    rw [hnone]
    rfl
  rw [this]
  rfl

/-- Witness for C4 at a concrete call. -/
theorem c4_witness :
    getAttr (child (okTag (input_date (fun _ => none) (fun s => s) ⟨2024, 1, 2⟩
        "d" (.text "L") none none none "yyyy-mm-dd" "month" 0 "en" none true none
        none)) 1) "data-initial-date"
      = dateAttrStr (.native ⟨2024, 1, 2⟩)
    ∧ ((none : Option DateLike) = none →
        getAttr (child (okTag (input_date (fun _ => none) (fun s => s)
            ⟨2024, 1, 2⟩ "d" (.text "L") none none none "yyyy-mm-dd" "month" 0
            "en" none true none none)) 1) "data-initial-date"
          = some (dateToStr ⟨2024, 1, 2⟩)) :=
  c4_value_defaults_to_today (fun _ => none) (fun s => s) ⟨2024, 1, 2⟩ "d"
    (.text "L") none none "yyyy-mm-dd" "month" 0 "en" none true none none
    rfl rfl rfl

lemma dateAttrOpt_some (v : DateLike) : dateAttrOpt (some v) = dateAttrStr v := rfl

lemma tag_attr_initial_nil (id : String) (v : DateLike) (mn mx : Option DateLike)
    (f sv : String) (ws : Int) (lang : String) (ac : Bool) :
    getAttr (builtInputTag id (some v) mn mx f sv ws lang ac [])
        "data-initial-date"
      = dateAttrStr v := by
  cases hm : dateAttrOpt mn <;> cases hx : dateAttrOpt mx <;>
    cases hv : dateAttrStr v <;>
    simp [builtInputTag, builtInputAttrs, dateAttrOpt_some, hm, hx, hv, buildAttrs,
      getAttr, TagNode.attrs]

lemma tag_attr_initial_dis (id : String) (v : DateLike) (mn mx : Option DateLike)
    (f sv : String) (ws : Int) (lang : String) (ac : Bool) (ddv dwv : String) :
    getAttr (builtInputTag id (some v) mn mx f sv ws lang ac
        [("data-date-dates-disabled", some ddv),
         ("data-date-days-of-week-disabled", some dwv)])
        "data-initial-date"
      = dateAttrStr v := by
  cases hm : dateAttrOpt mn <;> cases hx : dateAttrOpt mx <;>
    cases hv : dateAttrStr v <;>
    simp [builtInputTag, builtInputAttrs, dateAttrOpt_some, hm, hx, hv, buildAttrs,
      getAttr, TagNode.attrs]

lemma tag_attr_dates_dis (id : String) (value mn mx : Option DateLike)
    (f sv : String) (ws : Int) (lang : String) (ac : Bool) (ddv dwv : String) :
    getAttr (builtInputTag id value mn mx f sv ws lang ac
        [("data-date-dates-disabled", some ddv),
         ("data-date-days-of-week-disabled", some dwv)])
        "data-date-dates-disabled"
      = some ddv := by
  cases hm : dateAttrOpt mn <;> cases hx : dateAttrOpt mx <;>
    cases hv : dateAttrOpt value <;>
    simp [builtInputTag, builtInputAttrs, hm, hx, hv, buildAttrs, getAttr,
      TagNode.attrs]

lemma tag_attr_dow_dis (id : String) (value mn mx : Option DateLike)
    (f sv : String) (ws : Int) (lang : String) (ac : Bool) (ddv dwv : String) :
    getAttr (builtInputTag id value mn mx f sv ws lang ac
        [("data-date-dates-disabled", some ddv),
         ("data-date-days-of-week-disabled", some dwv)])
        "data-date-days-of-week-disabled"
      = some dwv := by
  cases hm : dateAttrOpt mn <;> cases hx : dateAttrOpt mx <;>
    cases hv : dateAttrOpt value <;>
    simp [builtInputTag, builtInputAttrs, hm, hx, hv, buildAttrs, getAttr,
      TagNode.attrs]

lemma tag_attr_class (id : String) (value mn mx : Option DateLike)
    (f sv : String) (ws : Int) (lang : String) (ac : Bool)
    (kwargs : List (String × Option String)) :
    getAttr (builtInputTag id value mn mx f sv ws lang ac kwargs) "class"
      = some "form-control" := by
  simp [builtInputTag, builtInputAttrs, buildAttrs, getAttr, TagNode.attrs]

lemma tag_attr_aria (id : String) (value mn mx : Option DateLike)
    (f sv : String) (ws : Int) (lang : String) (ac : Bool)
    (kwargs : List (String × Option String)) :
    getAttr (builtInputTag id value mn mx f sv ws lang ac kwargs)
        "aria-labelledby"
      = some (id ++ "-label") := by
  simp [builtInputTag, builtInputAttrs, buildAttrs, getAttr, TagNode.attrs]

lemma tag_attr_id_nil (id : String) (value mn mx : Option DateLike)
    (f sv : String) (ws : Int) (lang : String) (ac : Bool) :
    getAttr (builtInputTag id value mn mx f sv ws lang ac []) "id" = none := by
  cases hm : dateAttrOpt mn <;> cases hx : dateAttrOpt mx <;>
    cases hv : dateAttrOpt value <;>
    simp [builtInputTag, builtInputAttrs, hm, hx, hv, buildAttrs, getAttr,
      TagNode.attrs]

lemma tag_attr_id_dis (id : String) (value mn mx : Option DateLike)
    (f sv : String) (ws : Int) (lang : String) (ac : Bool) (ddv dwv : String) :
    getAttr (builtInputTag id value mn mx f sv ws lang ac
        [("data-date-dates-disabled", some ddv),
         ("data-date-days-of-week-disabled", some dwv)])
        "id"
      = none := by
  cases hm : dateAttrOpt mn <;> cases hx : dateAttrOpt mx <;>
    cases hv : dateAttrOpt value <;>
    simp [builtInputTag, builtInputAttrs, hm, hx, hv, buildAttrs, getAttr,
      TagNode.attrs]

lemma tag_attrs_remove_initial (id : String) (v : DateLike) (mn mx : Option DateLike)
    (f sv : String) (ws : Int) (lang : String) (ac : Bool) :
    removeAttr (builtInputTag id (some v) mn mx f sv ws lang ac []).attrs
        "data-initial-date"
      = [("class", "form-control"), ("type", "text"),
         ("aria-labelledby", id ++ "-label"), ("title", "Date format: " ++ f),
         ("data-date-language", lang), ("data-date-week-start", toString ws),
         ("data-date-format", f), ("data-date-start-view", sv)]
        ++ buildAttrs [("data-min-date", dateAttrOpt mn)]
        ++ buildAttrs [("data-max-date", dateAttrOpt mx)]
        ++ [("data-date-autoclose", if ac then "true" else "false")] := by
  cases hm : dateAttrOpt mn <;> cases hx : dateAttrOpt mx <;>
    cases hv : dateAttrStr v <;>
    simp [builtInputTag, builtInputAttrs, dateAttrOpt_some, hm, hx, hv, buildAttrs,
      removeAttr, TagNode.attrs]

/-- C5: the range builder consults the restore collaborator once, keyed by
the resolved id, with the ordered pair of start/end defaults; the returned
pair's components become the first and second sub-input's
`data-initial-date` positionally, and a bookmarked pair replaces the
defaults entirely. -/
theorem c5_range_restore_positional (saved : String → Option (DateLike × DateLike))
    (resolve : String → String) (today : Date) (id : String) (label : TagNode)
    (start stop mn mx : Option DateLike) (format startview : String)
    (weekstart : Int) (language separator : String) (width : Option String)
    (autoclose : Bool) (p : DateLike × DateLike)
    (h1 : okDL (some (restore_input saved (resolve id)
      (start.getD (.native today), stop.getD (.native today))).1) = true)
    (h2 : okDL (some (restore_input saved (resolve id)
      (start.getD (.native today), stop.getD (.native today))).2) = true)
    (hmn : okDL mn = true) (hmx : okDL mx = true) :
    getAttr (child (child (okTag (input_date_range saved resolve today id label
        start stop mn mx format startview weekstart language separator width
        autoclose)) 1) 0) "data-initial-date"
      = dateAttrStr (restore_input saved (resolve id)
          (start.getD (.native today), stop.getD (.native today))).1
    ∧ getAttr (child (child (okTag (input_date_range saved resolve today id label
        start stop mn mx format startview weekstart language separator width
        autoclose)) 1) 2) "data-initial-date"
      = dateAttrStr (restore_input saved (resolve id)
          (start.getD (.native today), stop.getD (.native today))).2
    ∧ (saved (resolve id) = some p →
        restore_input saved (resolve id)
          (start.getD (.native today), stop.getD (.native today)) = p) := by
  rw [input_date_range_ok saved resolve today id label start stop mn mx format
    startview weekstart language separator width autoclose h1 h2 hmn hmx]
  refine ⟨?_, ?_, ?_⟩
  · simp only [okTag, child, TagNode.children, List.getD, List.get?, Option.getD]
    exact tag_attr_initial_nil _ _ _ _ _ _ _ _ _
  · simp only [okTag, child, TagNode.children, List.getD, List.get?, Option.getD]
    exact tag_attr_initial_nil _ _ _ _ _ _ _ _ _
  · intro hp
    unfold restore_input
    rw [hp]
    rfl

/-- Witness for C5 with a bookmarked pair overriding the defaults. -/
theorem c5_witness :
    getAttr (child (child (okTag (input_date_range
        (fun _ => some (.str "2020-05-06", .str "2020-07-08")) (fun s => s)
        ⟨2024, 1, 2⟩ "r" (.text "L") none none none none "yyyy-mm-dd" "month" 0
        "en" " to " none true)) 1) 0) "data-initial-date"
      = dateAttrStr (.str "2020-05-06")
    ∧ getAttr (child (child (okTag (input_date_range
        (fun _ => some (.str "2020-05-06", .str "2020-07-08")) (fun s => s)
        ⟨2024, 1, 2⟩ "r" (.text "L") none none none none "yyyy-mm-dd" "month" 0
        "en" " to " none true)) 1) 2) "data-initial-date"
      = dateAttrStr (.str "2020-07-08")
    ∧ (some ((.str "2020-05-06", .str "2020-07-08") : DateLike × DateLike)
          = some ((.str "2020-05-06", .str "2020-07-08") : DateLike × DateLike) →
        ((DateLike.str "2020-05-06", DateLike.str "2020-07-08") : DateLike × DateLike)
          = (.str "2020-05-06", .str "2020-07-08")) :=
  c5_range_restore_positional
    (fun _ => some (.str "2020-05-06", .str "2020-07-08")) (fun s => s)
    ⟨2024, 1, 2⟩ "r" (.text "L") none none none none "yyyy-mm-dd" "month" 0
    "en" " to " none true (.str "2020-05-06", .str "2020-07-08")
    rfl rfl rfl rfl

/-- C3 counterexample: with `daysofweekdisabled = [0, 6]` the emitted
`data-date-days-of-week-disabled` attribute is the string `[0, 6]` (Python
json.dumps default separators put a space after the comma), which differs
from the claimed literal `[0,6]`. -/
theorem c3_counterexample :
    getAttr (child (okTag (input_date (fun _ => none) (fun s => s) ⟨2024, 1, 2⟩
        "d" (.text "L") none none none "yyyy-mm-dd" "month" 0 "en" none true none
        (some [0, 6]))) 1) "data-date-days-of-week-disabled" = some "[0, 6]"
    ∧ ("[0, 6]" : String) ≠ "[0,6]" :=
  ⟨rfl, by decide⟩

/-- C3 (amended): `daysofweekdisabled=[0,6]` on the single-date builder
serializes to the JSON array string `[0, 6]` (json.dumps default
separators) inside `data-date-days-of-week-disabled`, and passing no value
makes both `data-date-days-of-week-disabled` and `data-date-dates-disabled`
equal the literal string `null` - emitted, not omitted. -/
theorem c3_disabled_lists_serialization (resolve : String → String) (today : Date)
    (id : String) (label : TagNode) (mn mx : Option DateLike)
    (format startview : String) (weekstart : Int) (language : String)
    (width : Option String) (autoclose : Bool)
    (hmn : okDL mn = true) (hmx : okDL mx = true) :
    getAttr (child (okTag (input_date (fun _ => none) resolve today id label none
        mn mx format startview weekstart language width autoclose none
        (some [0, 6]))) 1) "data-date-days-of-week-disabled" = some "[0, 6]"
    ∧ getAttr (child (okTag (input_date (fun _ => none) resolve today id label none
        mn mx format startview weekstart language width autoclose none none)) 1)
        "data-date-days-of-week-disabled" = some "null"
    ∧ getAttr (child (okTag (input_date (fun _ => none) resolve today id label none
        mn mx format startview weekstart language width autoclose none none)) 1)
        "data-date-dates-disabled" = some "null" := by
  refine ⟨?_, ?_, ?_⟩
  · rw [input_date_ok (fun _ => none) resolve today id label none mn mx format
      startview weekstart language width autoclose none (some [0, 6]) rfl hmn hmx]
    simp only [okTag, child, TagNode.children, List.getD, List.get?, Option.getD]
    rw [tag_attr_dow_dis]
    rfl
  · rw [input_date_ok (fun _ => none) resolve today id label none mn mx format
      startview weekstart language width autoclose none none rfl hmn hmx]
    simp only [okTag, child, TagNode.children, List.getD, List.get?, Option.getD]
    rw [tag_attr_dow_dis]
    rfl
  · rw [input_date_ok (fun _ => none) resolve today id label none mn mx format
      startview weekstart language width autoclose none none rfl hmn hmx]
    simp only [okTag, child, TagNode.children, List.getD, List.get?, Option.getD]
    rw [tag_attr_dates_dis]
    rfl

/-- Witness for the amended C3 at a concrete call. -/
theorem c3_witness :
    okDL (none : Option DateLike) = true
    ∧ (getAttr (child (okTag (input_date (fun _ => none) (fun s => s) ⟨2024, 1, 2⟩
          "d" (.text "L") none none none "yyyy-mm-dd" "month" 0 "en" none true none
          (some [0, 6]))) 1) "data-date-days-of-week-disabled" = some "[0, 6]"
        ∧ getAttr (child (okTag (input_date (fun _ => none) (fun s => s) ⟨2024, 1, 2⟩
            "d" (.text "L") none none none "yyyy-mm-dd" "month" 0 "en" none true none
            none)) 1) "data-date-days-of-week-disabled" = some "null"
        ∧ getAttr (child (okTag (input_date (fun _ => none) (fun s => s) ⟨2024, 1, 2⟩
            "d" (.text "L") none none none "yyyy-mm-dd" "month" 0 "en" none true none
            none)) 1) "data-date-dates-disabled" = some "null") :=
  ⟨rfl, c3_disabled_lists_serialization (fun s => s) ⟨2024, 1, 2⟩ "d" (.text "L")
    none none "yyyy-mm-dd" "month" 0 "en" none true rfl rfl⟩

/-- C6: `_date_input_tag` produces an `input` element of type `text`
carrying the aria label association `<id>-label`, a title summarizing the
display format, data attributes for language, week start, format, start
view, min/max/initial dates, `data-date-autoclose` equal to `true`/`false`,
and any extra caller kwargs appended verbatim; the datepicker dependency is
attached as its child. -/
theorem c6_tag_structure (id : String) (value mn mx : Option DateLike)
    (format startview : String) (weekstart : Int) (language : String)
    (autoclose : Bool) (kwargs : List (String × Option String))
    (hv : okDL value = true) (hmn : okDL mn = true) (hmx : okDL mx = true) :
    _date_input_tag id value mn mx format startview weekstart language autoclose
        kwargs
      = .ok (.elem "input"
          (buildAttrs
            ([("class", some "form-control"),
              ("type", some "text"),
              ("aria-labelledby", some (id ++ "-label")),
              ("title", some ("Date format: " ++ format)),
              ("data-date-language", some language),
              ("data-date-week-start", some (toString weekstart)),
              ("data-date-format", some format),
              ("data-date-start-view", some startview),
              ("data-min-date", dateAttrOpt mn),
              ("data-max-date", dateAttrOpt mx),
              ("data-initial-date", dateAttrOpt value),
              ("data-date-autoclose",
                some (if autoclose then "true" else "false"))]
             ++ kwargs))
          [datepicker_deps]) := by
  rw [date_input_tag_ok id value mn mx format startview weekstart language
    autoclose kwargs hv hmn hmx]
  rfl

/-- Witness for C6 at a concrete call with an extra kwarg. -/
theorem c6_witness :
    _date_input_tag "d" (some (.str "2024-03-15")) none none "yyyy-mm-dd" "month"
        0 "en" true [("data-extra", some "x")]
      = .ok (.elem "input"
          (buildAttrs
            ([("class", some "form-control"),
              ("type", some "text"),
              ("aria-labelledby", some ("d" ++ "-label")),
              ("title", some ("Date format: " ++ "yyyy-mm-dd")),
              ("data-date-language", some "en"),
              ("data-date-week-start", some (toString (0 : Int))),
              ("data-date-format", some "yyyy-mm-dd"),
              ("data-date-start-view", some "month"),
              ("data-min-date", dateAttrOpt none),
              ("data-max-date", dateAttrOpt none),
              ("data-initial-date", dateAttrOpt (some (.str "2024-03-15"))),
              ("data-date-autoclose", some (if true then "true" else "false"))]
             ++ [("data-extra", some "x")]))
          [datepicker_deps]) :=
  c6_tag_structure "d" (some (.str "2024-03-15")) none none "yyyy-mm-dd" "month"
    0 "en" true [("data-extra", some "x")] rfl rfl rfl

/-- C7: the wire-contract class vocabulary: the outer containers carry
`shiny-date-input form-group shiny-input-container` and
`shiny-date-range-input form-group shiny-input-container`, every text input
carries `form-control`, and the nested range group carries
`input-daterange input-group input-group-sm`. -/
theorem c7_class_vocabulary (saved : String → Option DateLike)
    (savedR : String → Option (DateLike × DateLike)) (resolve : String → String)
    (today : Date) (id : String) (label : TagNode)
    (value start stop mn mx : Option DateLike) (format startview : String)
    (weekstart : Int) (language separator : String) (width : Option String)
    (autoclose : Bool) (dd : Option (List String)) (dw : Option (List Int))
    (hv : okDL (some (restore_input saved (resolve id)
      (value.getD (.native today)))) = true)
    (h1 : okDL (some (restore_input savedR (resolve id)
      (start.getD (.native today), stop.getD (.native today))).1) = true)
    (h2 : okDL (some (restore_input savedR (resolve id)
      (start.getD (.native today), stop.getD (.native today))).2) = true)
    (hmn : okDL mn = true) (hmx : okDL mx = true) :
    getAttr (okTag (input_date saved resolve today id label value mn mx format
        startview weekstart language width autoclose dd dw)) "class"
      = some "shiny-date-input form-group shiny-input-container"
    ∧ getAttr (child (okTag (input_date saved resolve today id label value mn mx
        format startview weekstart language width autoclose dd dw)) 1) "class"
      = some "form-control"
    ∧ getAttr (okTag (input_date_range savedR resolve today id label start stop
        mn mx format startview weekstart language separator width autoclose))
        "class"
      = some "shiny-date-range-input form-group shiny-input-container"
    ∧ getAttr (child (okTag (input_date_range savedR resolve today id label start
        stop mn mx format startview weekstart language separator width
        autoclose)) 1) "class"
      = some "input-daterange input-group input-group-sm"
    ∧ getAttr (child (child (okTag (input_date_range savedR resolve today id label
        start stop mn mx format startview weekstart language separator width
        autoclose)) 1) 0) "class"
      = some "form-control"
    ∧ getAttr (child (child (okTag (input_date_range savedR resolve today id label
        start stop mn mx format startview weekstart language separator width
        autoclose)) 1) 2) "class"
      = some "form-control" := by
  rw [input_date_ok saved resolve today id label value mn mx format startview
    weekstart language width autoclose dd dw hv hmn hmx,
    input_date_range_ok savedR resolve today id label start stop mn mx format
    startview weekstart language separator width autoclose h1 h2 hmn hmx]
  refine ⟨?_, ?_, ?_, ?_, ?_, ?_⟩
  · simp [okTag, getAttr, TagNode.attrs, buildAttrs]
  · simp only [okTag, child, TagNode.children, List.getD, List.get?, Option.getD]
    exact tag_attr_class _ _ _ _ _ _ _ _ _ _
  · simp [okTag, getAttr, TagNode.attrs, buildAttrs]
  · simp only [okTag, child, TagNode.children, List.getD, List.get?, Option.getD]
    simp [getAttr, TagNode.attrs, buildAttrs]
  · simp only [okTag, child, TagNode.children, List.getD, List.get?, Option.getD]
    exact tag_attr_class _ _ _ _ _ _ _ _ _ _
  · simp only [okTag, child, TagNode.children, List.getD, List.get?, Option.getD]
    exact tag_attr_class _ _ _ _ _ _ _ _ _ _

/-- Witness for C7 at concrete calls. -/
theorem c7_witness :
    getAttr (okTag (input_date (fun _ => none) (fun s => s) ⟨2024, 1, 2⟩ "d"
        (.text "L") none none none "yyyy-mm-dd" "month" 0 "en" none true none
        none)) "class"
      = some "shiny-date-input form-group shiny-input-container"
    ∧ getAttr (child (okTag (input_date (fun _ => none) (fun s => s) ⟨2024, 1, 2⟩
        "d" (.text "L") none none none "yyyy-mm-dd" "month" 0 "en" none true none
        none)) 1) "class"
      = some "form-control"
    ∧ getAttr (okTag (input_date_range (fun _ => none) (fun s => s) ⟨2024, 1, 2⟩
        "d" (.text "L") none none none none "yyyy-mm-dd" "month" 0 "en" " to "
        none true)) "class"
      = some "shiny-date-range-input form-group shiny-input-container"
    ∧ getAttr (child (okTag (input_date_range (fun _ => none) (fun s => s)
        ⟨2024, 1, 2⟩ "d" (.text "L") none none none none "yyyy-mm-dd" "month" 0
        "en" " to " none true)) 1) "class"
      = some "input-daterange input-group input-group-sm"
    ∧ getAttr (child (child (okTag (input_date_range (fun _ => none) (fun s => s)
        ⟨2024, 1, 2⟩ "d" (.text "L") none none none none "yyyy-mm-dd" "month" 0
        "en" " to " none true)) 1) 0) "class"
      = some "form-control"
    ∧ getAttr (child (child (okTag (input_date_range (fun _ => none) (fun s => s)
        ⟨2024, 1, 2⟩ "d" (.text "L") none none none none "yyyy-mm-dd" "month" 0
        "en" " to " none true)) 1) 2) "class"
      = some "form-control" :=
  c7_class_vocabulary (fun _ => none) (fun _ => none) (fun s => s) ⟨2024, 1, 2⟩
    "d" (.text "L") none none none none none "yyyy-mm-dd" "month" 0 "en" " to "
    none true none none rfl rfl rfl rfl rfl

/-- C8: the two sub-inputs of `input_date_range` carry identical attributes
for everything derived from min, max, format, startview, weekstart,
language and autoclose; they can differ only in `data-initial-date`, so
removing that attribute from both attribute lists yields equal lists. -/
theorem c8_range_subinputs_agree (savedR : String → Option (DateLike × DateLike))
    (resolve : String → String) (today : Date) (id : String) (label : TagNode)
    (start stop mn mx : Option DateLike) (format startview : String)
    (weekstart : Int) (language separator : String) (width : Option String)
    (autoclose : Bool)
    (h1 : okDL (some (restore_input savedR (resolve id)
      (start.getD (.native today), stop.getD (.native today))).1) = true)
    (h2 : okDL (some (restore_input savedR (resolve id)
      (start.getD (.native today), stop.getD (.native today))).2) = true)
    (hmn : okDL mn = true) (hmx : okDL mx = true) :
    removeAttr (child (child (okTag (input_date_range savedR resolve today id
        label start stop mn mx format startview weekstart language separator
        width autoclose)) 1) 0).attrs "data-initial-date"
      = removeAttr (child (child (okTag (input_date_range savedR resolve today id
          label start stop mn mx format startview weekstart language separator
          width autoclose)) 1) 2).attrs "data-initial-date" := by
  rw [input_date_range_ok savedR resolve today id label start stop mn mx format
    startview weekstart language separator width autoclose h1 h2 hmn hmx]
  simp only [okTag, child, TagNode.children, List.getD, List.get?, Option.getD]
  rw [tag_attrs_remove_initial, tag_attrs_remove_initial]

/-- Witness for C8 at a concrete call with distinct start and end. -/
theorem c8_witness :
    removeAttr (child (child (okTag (input_date_range (fun _ => none)
        (fun s => s) ⟨2024, 1, 2⟩ "r" (.text "L") (some (.str "2020-01-01")) none
        (some (.str "2019-01-01")) (some (.str "2021-01-01")) "yyyy-mm-dd"
        "month" 0 "en" " to " none true)) 1) 0).attrs "data-initial-date"
      = removeAttr (child (child (okTag (input_date_range (fun _ => none)
          (fun s => s) ⟨2024, 1, 2⟩ "r" (.text "L") (some (.str "2020-01-01")) none
          (some (.str "2019-01-01")) (some (.str "2021-01-01")) "yyyy-mm-dd"
          "month" 0 "en" " to " none true)) 1) 2).attrs "data-initial-date" :=
  c8_range_subinputs_agree (fun _ => none) (fun s => s) ⟨2024, 1, 2⟩ "r"
    (.text "L") (some (.str "2020-01-01")) none (some (.str "2019-01-01"))
    (some (.str "2021-01-01")) "yyyy-mm-dd" "month" 0 "en" " to " none true
    rfl rfl rfl rfl

/-- C9: no produced input element carries an `id` attribute - the resolved
id is set only on the outer container - and both range sub-inputs carry the
same aria association value, the resolved id plus `-label`. -/
theorem c9_no_id_on_inputs (saved : String → Option DateLike)
    (savedR : String → Option (DateLike × DateLike)) (resolve : String → String)
    (today : Date) (id : String) (label : TagNode)
    (value start stop mn mx : Option DateLike) (format startview : String)
    (weekstart : Int) (language separator : String) (width : Option String)
    (autoclose : Bool) (dd : Option (List String)) (dw : Option (List Int))
    (hv : okDL (some (restore_input saved (resolve id)
      (value.getD (.native today)))) = true)
    (h1 : okDL (some (restore_input savedR (resolve id)
      (start.getD (.native today), stop.getD (.native today))).1) = true)
    (h2 : okDL (some (restore_input savedR (resolve id)
      (start.getD (.native today), stop.getD (.native today))).2) = true)
    (hmn : okDL mn = true) (hmx : okDL mx = true) :
    getAttr (child (okTag (input_date saved resolve today id label value mn mx
        format startview weekstart language width autoclose dd dw)) 1) "id"
      = none
    ∧ getAttr (okTag (input_date saved resolve today id label value mn mx format
        startview weekstart language width autoclose dd dw)) "id"
      = some (resolve id)
    ∧ getAttr (child (child (okTag (input_date_range savedR resolve today id
        label start stop mn mx format startview weekstart language separator
        width autoclose)) 1) 0) "id"
      = none
    ∧ getAttr (child (child (okTag (input_date_range savedR resolve today id
        label start stop mn mx format startview weekstart language separator
        width autoclose)) 1) 2) "id"
      = none
    ∧ getAttr (okTag (input_date_range savedR resolve today id label start stop
        mn mx format startview weekstart language separator width autoclose))
        "id"
      = some (resolve id)
    ∧ getAttr (child (child (okTag (input_date_range savedR resolve today id
        label start stop mn mx format startview weekstart language separator
        width autoclose)) 1) 0) "aria-labelledby"
      = some (resolve id ++ "-label")
    ∧ getAttr (child (child (okTag (input_date_range savedR resolve today id
        label start stop mn mx format startview weekstart language separator
        width autoclose)) 1) 2) "aria-labelledby"
      = some (resolve id ++ "-label") := by
  rw [input_date_ok saved resolve today id label value mn mx format startview
    weekstart language width autoclose dd dw hv hmn hmx,
    input_date_range_ok savedR resolve today id label start stop mn mx format
    startview weekstart language separator width autoclose h1 h2 hmn hmx]
  refine ⟨?_, ?_, ?_, ?_, ?_, ?_, ?_⟩
  · simp only [okTag, child, TagNode.children, List.getD, List.get?, Option.getD]
    exact tag_attr_id_dis _ _ _ _ _ _ _ _ _ _ _
  · simp [okTag, getAttr, TagNode.attrs, buildAttrs]
  · simp only [okTag, child, TagNode.children, List.getD, List.get?, Option.getD]
    exact tag_attr_id_nil _ _ _ _ _ _ _ _ _
  · simp only [okTag, child, TagNode.children, List.getD, List.get?, Option.getD]
    exact tag_attr_id_nil _ _ _ _ _ _ _ _ _
  · simp [okTag, getAttr, TagNode.attrs, buildAttrs]
  · simp only [okTag, child, TagNode.children, List.getD, List.get?, Option.getD]
    exact tag_attr_aria _ _ _ _ _ _ _ _ _ _
  · simp only [okTag, child, TagNode.children, List.getD, List.get?, Option.getD]
    exact tag_attr_aria _ _ _ _ _ _ _ _ _ _

/-- Witness for C9 at concrete calls. -/
theorem c9_witness :
    getAttr (child (okTag (input_date (fun _ => none) (fun s => s) ⟨2024, 1, 2⟩
        "d" (.text "L") none none none "yyyy-mm-dd" "month" 0 "en" none true none
        none)) 1) "id"
      = none
    ∧ getAttr (okTag (input_date (fun _ => none) (fun s => s) ⟨2024, 1, 2⟩ "d"
        (.text "L") none none none "yyyy-mm-dd" "month" 0 "en" none true none
        none)) "id"
      = some "d"
    ∧ getAttr (child (child (okTag (input_date_range (fun _ => none) (fun s => s)
        ⟨2024, 1, 2⟩ "d" (.text "L") none none none none "yyyy-mm-dd" "month" 0
        "en" " to " none true)) 1) 0) "id"
      = none
    ∧ getAttr (child (child (okTag (input_date_range (fun _ => none) (fun s => s)
        ⟨2024, 1, 2⟩ "d" (.text "L") none none none none "yyyy-mm-dd" "month" 0
        "en" " to " none true)) 1) 2) "id"
      = none
    ∧ getAttr (okTag (input_date_range (fun _ => none) (fun s => s) ⟨2024, 1, 2⟩
        "d" (.text "L") none none none none "yyyy-mm-dd" "month" 0 "en" " to "
        none true)) "id"
      = some "d"
    ∧ getAttr (child (child (okTag (input_date_range (fun _ => none) (fun s => s)
        ⟨2024, 1, 2⟩ "d" (.text "L") none none none none "yyyy-mm-dd" "month" 0
        "en" " to " none true)) 1) 0) "aria-labelledby"
      = some ("d" ++ "-label")
    ∧ getAttr (child (child (okTag (input_date_range (fun _ => none) (fun s => s)
        ⟨2024, 1, 2⟩ "d" (.text "L") none none none none "yyyy-mm-dd" "month" 0
        "en" " to " none true)) 1) 2) "aria-labelledby"
      = some ("d" ++ "-label") :=
  c9_no_id_on_inputs (fun _ => none) (fun _ => none) (fun s => s) ⟨2024, 1, 2⟩
    "d" (.text "L") none none none none none "yyyy-mm-dd" "month" 0 "en" " to "
    none true none none rfl rfl rfl rfl rfl

lemma map_stripStyle_bind (e : Except FormatError TagNode) (rid cls : String)
    (ch : TagNode → List TagNode) (w1 w2 : Option String) :
    Except.map stripStyle (e >>= fun inp => Except.ok (TagNode.elem "div"
        (buildAttrs [("id", some rid), ("class", some cls),
          ("style", cssWidth w1)]) (ch inp)))
      = Except.map stripStyle (e >>= fun inp => Except.ok (TagNode.elem "div"
          (buildAttrs [("id", some rid), ("class", some cls),
            ("style", cssWidth w2)]) (ch inp))) := by
  cases e with
  | error er => rfl
  | ok inp =>
    cases w1 <;> cases w2 <;> rfl

lemma map_stripStyle_bind2 (e1 e2 : Except FormatError TagNode) (rid cls : String)
    (ch : TagNode → TagNode → List TagNode) (w1 w2 : Option String) :
    Except.map stripStyle (e1 >>= fun a => e2 >>= fun b => Except.ok
        (TagNode.elem "div"
          (buildAttrs [("id", some rid), ("class", some cls),
            ("style", cssWidth w1)]) (ch a b)))
      = Except.map stripStyle (e1 >>= fun a => e2 >>= fun b => Except.ok
          (TagNode.elem "div"
            (buildAttrs [("id", some rid), ("class", some cls),
              ("style", cssWidth w2)]) (ch a b))) := by
  cases e1 with
  | error er => rfl
  | ok a =>
    cases e2 with
    | error er => rfl
    | ok b =>
      cases w1 <;> cases w2 <;> rfl

/-- C10: with `width` absent the outer container has no `style` attribute;
with `width` given the container style is exactly that CSS width
declaration; and no other part of the produced markup depends on `width`
(after stripping the container style, renders with different widths are
equal). -/
theorem c10_width_style (saved : String → Option DateLike)
    (savedR : String → Option (DateLike × DateLike)) (resolve : String → String)
    (today : Date) (id : String) (label : TagNode)
    (value start stop mn mx : Option DateLike) (format startview : String)
    (weekstart : Int) (language separator : String) (w : String)
    (w1 w2 : Option String) (autoclose : Bool) (dd : Option (List String))
    (dw : Option (List Int))
    (hv : okDL (some (restore_input saved (resolve id)
      (value.getD (.native today)))) = true)
    (h1 : okDL (some (restore_input savedR (resolve id)
      (start.getD (.native today), stop.getD (.native today))).1) = true)
    (h2 : okDL (some (restore_input savedR (resolve id)
      (start.getD (.native today), stop.getD (.native today))).2) = true)
    (hmn : okDL mn = true) (hmx : okDL mx = true) :
    getAttr (okTag (input_date saved resolve today id label value mn mx format
        startview weekstart language none autoclose dd dw)) "style" = none
    ∧ getAttr (okTag (input_date saved resolve today id label value mn mx format
        startview weekstart language (some w) autoclose dd dw)) "style"
      = some ("width:" ++ w ++ ";")
    ∧ Except.map stripStyle (input_date saved resolve today id label value mn mx
        format startview weekstart language w1 autoclose dd dw)
      = Except.map stripStyle (input_date saved resolve today id label value mn mx
          format startview weekstart language w2 autoclose dd dw)
    ∧ getAttr (okTag (input_date_range savedR resolve today id label start stop
        mn mx format startview weekstart language separator none autoclose))
        "style" = none
    ∧ getAttr (okTag (input_date_range savedR resolve today id label start stop
        mn mx format startview weekstart language separator (some w) autoclose))
        "style" = some ("width:" ++ w ++ ";")
    ∧ Except.map stripStyle (input_date_range savedR resolve today id label start
        stop mn mx format startview weekstart language separator w1 autoclose)
      = Except.map stripStyle (input_date_range savedR resolve today id label
          start stop mn mx format startview weekstart language separator w2
          autoclose) := by
  refine ⟨?_, ?_, ?_, ?_, ?_, ?_⟩
  · rw [input_date_ok saved resolve today id label value mn mx format startview
      weekstart language none autoclose dd dw hv hmn hmx]
    simp [okTag, getAttr, TagNode.attrs, buildAttrs, cssWidth]
  · rw [input_date_ok saved resolve today id label value mn mx format startview
      weekstart language (some w) autoclose dd dw hv hmn hmx]
    simp [okTag, getAttr, TagNode.attrs, buildAttrs, cssWidth]
  · simp only [input_date]
    exact map_stripStyle_bind _ (resolve id)
      "shiny-date-input form-group shiny-input-container"
      (fun inp => [shiny_input_label (resolve id) label, inp]) w1 w2
  · rw [input_date_range_ok savedR resolve today id label start stop mn mx format
      startview weekstart language separator none autoclose h1 h2 hmn hmx]
    simp [okTag, getAttr, TagNode.attrs, buildAttrs, cssWidth]
  · rw [input_date_range_ok savedR resolve today id label start stop mn mx format
      startview weekstart language separator (some w) autoclose h1 h2 hmn hmx]
    simp [okTag, getAttr, TagNode.attrs, buildAttrs, cssWidth]
  · simp only [input_date_range]
    exact map_stripStyle_bind2 _ _ (resolve id)
      "shiny-date-range-input form-group shiny-input-container"
      (fun a b =>
        [shiny_input_label (resolve id) label,
         .elem "div"
           (buildAttrs [("class", some "input-daterange input-group input-group-sm")])
           [a,
            .elem "span"
              (buildAttrs
                [("class", some "input-group-addon input-group-prepend input-group-append")])
              [.elem "span" (buildAttrs [("class", some "input-group-text")])
                [.text separator]],
            b]]) w1 w2

/-- Witness for C10 at concrete calls. -/
theorem c10_witness :
    getAttr (okTag (input_date (fun _ => none) (fun s => s) ⟨2024, 1, 2⟩ "d"
        (.text "L") none none none "yyyy-mm-dd" "month" 0 "en" none true none
        none)) "style" = none
    ∧ getAttr (okTag (input_date (fun _ => none) (fun s => s) ⟨2024, 1, 2⟩ "d"
        (.text "L") none none none "yyyy-mm-dd" "month" 0 "en" (some "400px")
        true none none)) "style" = some ("width:" ++ "400px" ++ ";")
    ∧ Except.map stripStyle (input_date (fun _ => none) (fun s => s) ⟨2024, 1, 2⟩
        "d" (.text "L") none none none "yyyy-mm-dd" "month" 0 "en" none true none
        none)
      = Except.map stripStyle (input_date (fun _ => none) (fun s => s)
          ⟨2024, 1, 2⟩ "d" (.text "L") none none none "yyyy-mm-dd" "month" 0 "en"
          (some "100%") true none none)
    ∧ getAttr (okTag (input_date_range (fun _ => none) (fun s => s) ⟨2024, 1, 2⟩
        "d" (.text "L") none none none none "yyyy-mm-dd" "month" 0 "en" " to "
        none true)) "style" = none
    ∧ getAttr (okTag (input_date_range (fun _ => none) (fun s => s) ⟨2024, 1, 2⟩
        "d" (.text "L") none none none none "yyyy-mm-dd" "month" 0 "en" " to "
        (some "400px") true)) "style" = some ("width:" ++ "400px" ++ ";")
    ∧ Except.map stripStyle (input_date_range (fun _ => none) (fun s => s)
        ⟨2024, 1, 2⟩ "d" (.text "L") none none none none "yyyy-mm-dd" "month" 0
        "en" " to " none true)
      = Except.map stripStyle (input_date_range (fun _ => none) (fun s => s)
          ⟨2024, 1, 2⟩ "d" (.text "L") none none none none "yyyy-mm-dd" "month" 0
          "en" " to " (some "100%") true) :=
  c10_width_style (fun _ => none) (fun _ => none) (fun s => s) ⟨2024, 1, 2⟩ "d"
    (.text "L") none none none none none "yyyy-mm-dd" "month" 0 "en" " to "
    "400px" none (some "100%") true none none rfl rfl rfl rfl rfl
